import Mathlib

/-
Shallow embedding of the real-time collaboration gateway of the
Real-Time-Collaborative-Workspace backend: the `WebSocketServer` class
(`src/websocket/server.ts`).

The stateful TypeScript methods are modelled as pure functions that take the
in-process connection registry (the `clients : Map<string, Set<WebSocketClient>>`
field) and return the updated registry together with the list of externally
visible actions they perform (Redis publishes, socket sends, MongoDB writes,
closes, pings). External collaborators that can fail (the MongoDB `Session`
model, the MongoDB `ActivityLog` model, and the Redis publish) are modelled by
an `Infra` record of success flags; a `false` flag makes the corresponding
`await` reject, and the rejection propagates exactly as the `try`/`catch`
structure of the source dictates.
-/

/-- The `EventType` enum from `src/types/enums.ts`. -/
inductive EventType where
  | user_joined
  | user_left
  | file_changed
  | cursor_moved
  | activity_update
deriving DecidableEq, Repr

/-- The `CollaborationEvent` interface of `src/websocket/server.ts`.
The payload is opaque to the gateway; it is modelled as a string.
Timestamps (`new Date()`) are modelled as naturals supplied by the caller. -/
structure CollaborationEvent where
  type : EventType
  projectId : String
  userId : String
  payload : String
  timestamp : Nat
deriving DecidableEq, Repr

/-- The `WebSocketClient` interface: a `ws` socket extended with the fields the
gateway attaches after authentication.  `cid` models JavaScript object identity
(the identity used by `Set.add` / `Set.delete`).  `userId` and `projectId` are
`Option` because they are absent until the connection is authenticated.
`readyState` is the `ws` ready-state number (`WebSocket.OPEN = 1`). -/
structure Client where
  cid : Nat
  userId : Option String
  projectId : Option String
  sessionId : String
  isAlive : Bool
  readyState : Nat
deriving DecidableEq, Repr

/-- The constant `WebSocket.OPEN` of the `ws` library. -/
def wsOPEN : Nat := 1

/-- Externally visible actions performed by the gateway. -/
inductive Act where
  | publish (channel : String) (e : CollaborationEvent)
  | send (cid : Nat) (e : CollaborationEvent)
  | errorReply (cid : Nat)
  | welcome (cid : Nat) (sessionId : String) (projectId : String)
  | sessionCreate (sessionId : String) (userId : String) (projectId : String)
  | sessionTouch (sessionId : String)
  | sessionDeactivate (sessionId : String)
  | logAppend (projectId : String) (userId : String) (t : EventType)
  | close (cid : Nat) (code : Nat) (reason : String)
  | terminate (cid : Nat)
  | ping (cid : Nat)
deriving DecidableEq, Repr

/-- Success flags for the three fallible external writes: the Session store
(MongoDB `Session`), the Activity Log (MongoDB `ActivityLog`) and the Event Bus
publish (`redisClient.publish`). -/
structure Infra where
  sessionOk : Bool
  activityOk : Bool
  publishOk : Bool
deriving DecidableEq, Repr

/-- All external writes succeed. -/
def Infra.ok : Infra := ⟨true, true, true⟩

/-- The in-process connection registry: the
`clients : Map<string, Set<WebSocketClient>>` field, as an association list
from project identifier to the room's clients. -/
abbrev Registry := List (String × List Client)

/-- Models `Map.get`. -/
def mapGet : Registry → String → Option (List Client)
  | [], _ => none
  | (k, v) :: rest, key => if k = key then some v else mapGet rest key

/-- Models `Map.set`. -/
def mapSet : Registry → String → List Client → Registry
  | [], key, v => [(key, v)]
  | (k, w) :: rest, key, v =>
      if k = key then (key, v) :: rest else (k, w) :: mapSet rest key v

/-- Models `Map.delete`. -/
def mapDelete : Registry → String → Registry
  | [], _ => []
  | (k, w) :: rest, key =>
      if k = key then mapDelete rest key else (k, w) :: mapDelete rest key

/-- Models `Set.add` on a room, using object identity (`cid`). -/
def setAdd (cs : List Client) (c : Client) : List Client :=
  if cs.any (fun x => x.cid = c.cid) then cs else cs ++ [c]

/-- Lines 71-74 of the connection handler: create the room if absent, then add
the client. -/
def registryAdd (m : Registry) (pid : String) (c : Client) : Registry :=
  match mapGet m pid with
  | none => mapSet m pid (setAdd [] c)
  | some cs => mapSet m pid (setAdd cs c)

/-- Lines 171-177 of `handleDisconnect`: `Set.delete` the client, then prune
the room key when the room became empty. -/
def registryRemove (m : Registry) (pid : String) (c : Client) : Registry :=
  match mapGet m pid with
  | none => m
  | some cs =>
      let cs2 := cs.filter (fun x => x.cid ≠ c.cid)
      if cs2 = [] then mapDelete m pid else mapSet m pid cs2

/-- The send filter of `broadcastToProject` (lines 218-223): the client must be
`OPEN`, and a sender-matching client is suppressed unless the event is
`user_joined` or `user_left`. -/
def shouldSend (c : Client) (e : CollaborationEvent) : Bool :=
  c.readyState = wsOPEN &&
    (c.userId ≠ some e.userId || e.type = EventType.user_joined
      || e.type = EventType.user_left)

/-- Method `broadcastToProject` (lines 209-225): local fanout to the room stored under
`projectId`, filtered by `shouldSend`. -/
def broadcastToProject (m : Registry) (projectId : String)
    (e : CollaborationEvent) : List Act :=
  match mapGet m projectId with
  | none => []
  | some cs =>
      (cs.filter (fun c => shouldSend c e)).map (fun c => Act.send c.cid e)

/-- Method `broadcastEvent` (lines 198-207): publish to the per-project Redis channel,
then fan out locally.  The publish is always attempted first; when it rejects
(`publishOk = false`) the local fanout is never reached and the exception
propagates to the caller (`Except.error`). -/
def broadcastEvent (infra : Infra) (m : Registry) (e : CollaborationEvent) :
    Except (List Act) (List Act) :=
  let pub := Act.publish ("collaboration:" ++ e.projectId) e
  if infra.publishOk then .ok (pub :: broadcastToProject m e.projectId e)
  else .error [pub]

/-- The actions of `broadcastEvent` whether or not the publish rejected. -/
def runBroadcast (infra : Infra) (m : Registry) (e : CollaborationEvent) :
    List Act :=
  match broadcastEvent infra m e with
  | .ok as => as
  | .error as => as

/-- Method `handleMessage` (lines 134-166).  The three `await`s run in order: the
Session touch, the Activity Log append, then `broadcastEvent`.  A rejection of
any of them aborts the rest and propagates to the caller (`Except.error` carries
the actions attempted so far).  The `data.type` field is modelled as an already
parsed `EventType` and the timestamp parameter stands for `new Date()`. -/
def handleMessage (infra : Infra) (m : Registry) (ws : Client) (t : EventType)
    (payload : String) (now : Nat) : Except (List Act) (List Act) :=
  match ws.userId, ws.projectId with
  | some uid, some pid =>
      let touch := Act.sessionTouch ws.sessionId
      if !infra.sessionOk then .error [touch]
      else
        let e : CollaborationEvent := ⟨t, pid, uid, payload, now⟩
        let logA := Act.logAppend pid uid t
        if !infra.activityOk then .error [touch, logA]
        else
          match broadcastEvent infra m e with
          | .ok as => .ok (touch :: logA :: as)
          | .error as => .error (touch :: logA :: as)
  | _, _ => .ok []

/-- The `ws.on('message')` wrapper (lines 97-105): a rejection anywhere inside
`handleMessage` is caught and answered with the structured error reply
(`ws.send(JSON.stringify(\x7b error: 'Invalid message format' \x7d))`). -/
def onMessage (infra : Infra) (m : Registry) (ws : Client) (t : EventType)
    (payload : String) (now : Nat) : List Act :=
  match handleMessage infra m ws t payload now with
  | .ok as => as
  | .error as => as ++ [Act.errorReply ws.cid]

/-- Method `handleDisconnect` (lines 168-196): when the client carries a project and a
user, remove it from the registry (pruning an emptied room), set the Session
record inactive, and emit a synthetic `user_left` event through
`broadcastEvent` against the registry from which the client was already
removed.  A rejection of the Session write aborts before the broadcast. -/
def handleDisconnect (infra : Infra) (m : Registry) (ws : Client) (now : Nat) :
    Registry × List Act :=
  match ws.projectId, ws.userId with
  | some pid, some uid =>
      let m2 := registryRemove m pid ws
      let deact := Act.sessionDeactivate ws.sessionId
      if !infra.sessionOk then (m2, [deact])
      else
        let e : CollaborationEvent :=
          ⟨EventType.user_left, pid, uid, ws.sessionId, now⟩
        match broadcastEvent infra m2 e with
        | .ok as => (m2, deact :: as)
        | .error as => (m2, deact :: as)
  | _, _ => (m, [])

/-- The two handshake parameters read from the connection URL query string. -/
structure ConnReq where
  token : Option String
  projectId : Option String
deriving DecidableEq, Repr

/-- The `wss.on('connection')` handler (lines 41-128).  `verify` models
`authService.verifyAccessToken` (`none` = the verification threw, caught by the
outer `catch` which closes with `1011`); `role` models
`projectService.getUserRole` (`none` = no role, closed with `1008`).  `cid` is
the fresh socket's identity, `sid` the generated `uuidv4()` session id, `now`
the clock.  On the success path the client is registered, the Session record is
created, a `user_joined` event runs through the full `broadcastEvent` pipeline
(against the registry already containing the new client), and the welcome
acknowledgement is sent; a rejection of the Session write or of the publish is
caught by the outer `catch`, which closes the socket with `1011`. -/
def onConnection (verify : String → Option String)
    (role : String → String → Option String) (infra : Infra) (m : Registry)
    (req : ConnReq) (cid : Nat) (sid : String) (now : Nat) :
    Registry × List Act :=
  match req.token, req.projectId with
  | some tok, some pid =>
      match verify tok with
      | none => (m, [Act.close cid 1011 "Internal server error"])
      | some uid =>
          match role pid uid with
          | none => (m, [Act.close cid 1008 "Access denied"])
          | some _ =>
              let c : Client := ⟨cid, some uid, some pid, sid, true, wsOPEN⟩
              let m2 := registryAdd m pid c
              let sc := Act.sessionCreate sid uid pid
              if !infra.sessionOk then
                (m2, [sc, Act.close cid 1011 "Internal server error"])
              else
                let e : CollaborationEvent :=
                  ⟨EventType.user_joined, pid, uid, sid, now⟩
                match broadcastEvent infra m2 e with
                | .error as =>
                    (m2, sc :: (as ++ [Act.close cid 1011 "Internal server error"]))
                | .ok as => (m2, sc :: (as ++ [Act.welcome cid sid pid]))
  | _, _ => (m, [Act.close cid 1008 "Missing token or projectId"])

/-- A raw Bus message: either valid JSON encoding a `CollaborationEvent`, or
malformed text on which `JSON.parse` throws. -/
inductive Wire where
  | valid (e : CollaborationEvent)
  | malformed
deriving DecidableEq, Repr

/-- Models `JSON.parse` of a Bus message. -/
def parseWire : Wire → Option CollaborationEvent
  | .valid e => some e
  | .malformed => none

/-- Splitting a character list at every occurrence of `sep`, with the
JavaScript `String.prototype.split` semantics (`acc` is the segment read so
far, reversed). -/
def splitChars (sep : Char) : List Char → List Char → List (List Char)
  | [], acc => [acc.reverse]
  | c :: rest, acc =>
      if c = sep then acc.reverse :: splitChars sep rest []
      else splitChars sep rest (c :: acc)

/-- Models `channel.split(':')[1]`: `none` models the JavaScript `undefined`
obtained when the channel contains no separator. -/
def channelProject (ch : String) : Option String :=
  ((splitChars ':' ch.toList []).map String.mk).get? 1

/-- The `pmessage` handler installed by `setupRedisSubscription`
(lines 251-261): parse the message (a parse failure is logged and dropped),
derive the project identifier from the channel name, and fan out locally.
A channel-derived `undefined` key misses the registry, hence no fanout.
No publish is ever performed here. -/
def onPmessage (m : Registry) (ch : String) (w : Wire) : List Act :=
  match parseWire w with
  | none => []
  | some e =>
      match channelProject ch with
      | none => []
      | some pid => broadcastToProject m pid e

/-- One heartbeat sweep over a single client (lines 229-238): a client whose
liveness flag is already `false` is terminated (`none`); otherwise the flag is
reset to `false` and a ping is sent. -/
def sweepClient (c : Client) : Option Client × List Act :=
  if c.isAlive = false then (none, [Act.terminate c.cid])
  else (some { c with isAlive := false }, [Act.ping c.cid])

/-- The `pong` handler (lines 108-110). -/
def onPong (c : Client) : Client :=
  { c with isAlive := true }

/-- Count of Bus publish invocations in an action list. -/
def publishCount (as : List Act) : Nat :=
  as.countP (fun a => match a with | .publish _ _ => true | _ => false)

/-- Count of local socket deliveries in an action list (the error reply and the
welcome acknowledgement are not event deliveries). -/
def sendCount (as : List Act) : Nat :=
  as.countP (fun a => match a with | .send _ _ => true | _ => false)

/-- Count of `user_left` events emitted into the fanout pipeline (publishes of
`user_left` events). -/
def userLeftEmitCount (as : List Act) : Nat :=
  as.countP (fun a =>
    match a with
    | .publish _ e => e.type = EventType.user_left
    | _ => false)

/-- The registry invariant of the spec: every room key present in the map holds
a non-empty set of connections. -/
def RegInv (m : Registry) : Prop :=
  ∀ p cs, mapGet m p = some cs → cs ≠ []

/-- Close codes appearing in an action list, in order. -/
def closeCodes (as : List Act) : List Nat :=
  as.filterMap (fun a =>
    match a with
    | .close _ code _ => some code
    | _ => none)

/-
Concrete fixtures used by the counterexamples and witnesses below.
-/

/-- An open connection of user `v` in project `A`. -/
def cA : Client := ⟨0, some "v", some "A", "sA", true, 1⟩

/-- An open connection of user `v` in project `B`. -/
def cB : Client := ⟨1, some "v", some "B", "sB", true, 1⟩

/-- A registry hosting one connection in room `A` and one in room `B`. -/
def mAB : Registry := [("A", [cA]), ("B", [cB])]

/-- A `cursor_moved` event of user `u` whose body names project `A`. -/
def eA : CollaborationEvent := ⟨.cursor_moved, "A", "u", "p", 0⟩

/-- A registered connection of user `v` in project `p` whose socket is in the
`CLOSING` ready state (`2`), not `OPEN`. -/
def cClosing : Client := ⟨0, some "v", some "p", "s", true, 2⟩

/-- A registry whose room `p` holds only `cClosing`. -/
def mClosing : Registry := [("p", [cClosing])]

/-- A `user_joined` event of user `u` in project `p`. -/
def eJoin : CollaborationEvent := ⟨.user_joined, "p", "u", "x", 0⟩

/-- An open connection of user `v` in project `p`, an eligible receiver. -/
def recvV : Client := ⟨1, some "v", some "p", "sv", true, 1⟩

/-- A registry whose room `p` holds only `recvV`. -/
def mRecv : Registry := [("p", [recvV])]

/-- The authenticated sending connection of user `u` in project `p`. -/
def wsU : Client := ⟨0, some "u", some "p", "su", true, 1⟩

/-- Infrastructure where only the Bus publish fails. -/
def pubFail : Infra := ⟨true, true, false⟩

/-- The sole connection of user `u` in project `p`. -/
def cOnly : Client := ⟨0, some "u", some "p", "s", true, 1⟩

/-- A registry whose room `p` holds only `cOnly`. -/
def mOnly : Registry := [("p", [cOnly])]

/-- A credential verifier that rejects every token (the `jwt.verify` throw). -/
def badVerify : String → Option String := fun _ => none

/-- A credential verifier that resolves every token to user `u`. -/
def okVerify : String → Option String := fun _ => some "u"

/-- A role lookup that finds no role for anyone. -/
def noRole : String → String → Option String := fun _ _ => none

/-- A role lookup that grants everyone the `editor` role. -/
def editorRole : String → String → Option String := fun _ _ => some "editor"

/-- An open connection of user `v` in project `p`, distinct user from `u`. -/
def cOtherV : Client := ⟨1, some "v", some "p", "sv2", true, 1⟩

/-- A second open connection belonging to user `u` itself. -/
def cSelfU : Client := ⟨2, some "u", some "p", "su2", true, 1⟩

/-- A room of project `p` holding `cOtherV` and `cSelfU`. -/
def mUV : Registry := [("p", [cOtherV, cSelfU])]

/-- A `cursor_moved` event originated by user `u` in project `p`. -/
def eCursorU : CollaborationEvent := ⟨.cursor_moved, "p", "u", "q", 0⟩

/-- A `user_joined` event originated by user `u` in project `p`. -/
def eJoinU : CollaborationEvent := ⟨.user_joined, "p", "u", "q", 0⟩

/-
Helper lemmas about the registry operations and action counts.
-/

theorem mapGet_mapSet (m : Registry) (k p : String) (v : List Client) :
    mapGet (mapSet m k v) p = if k = p then some v else mapGet m p := by
  induction m with
  | nil => by_cases h : k = p <;> simp [mapSet, mapGet, h]
  | cons hd rest ih =>
      obtain ⟨a, w⟩ := hd
      by_cases hak : a = k
      · subst hak
        by_cases hkp : a = p <;> simp [mapSet, mapGet, hkp]
      · by_cases hkp : k = p
        · subst hkp
          simp [mapSet, mapGet, hak, ih]
        · simp [mapSet, mapGet, hak, hkp, ih]

theorem mapGet_mapDelete (m : Registry) (k p : String) :
    mapGet (mapDelete m k) p = if k = p then none else mapGet m p := by
  induction m with
  | nil => by_cases h : k = p <;> simp [mapDelete, mapGet, h]
  | cons hd rest ih =>
      obtain ⟨a, w⟩ := hd
      by_cases hak : a = k
      · subst hak
        by_cases hkp : a = p
        · subst hkp
          simp [mapDelete, mapGet, ih]
        · simp [mapDelete, mapGet, hkp, ih]
      · by_cases hap : a = p
        · subst hap
          simp [mapDelete, mapGet, hak, ih]
          intro h
          exact absurd h.symm hak
        · simp [mapDelete, mapGet, hak, hap, ih]

theorem mapSet_mapSet (m : Registry) (k : String) (v w : List Client) :
    mapSet (mapSet m k v) k w = mapSet m k w := by
  induction m with
  | nil => simp [mapSet]
  | cons hd rest ih =>
      obtain ⟨a, u⟩ := hd
      by_cases hak : a = k <;> simp [mapSet, hak, ih]

theorem setAdd_ne_nil (cs : List Client) (c : Client) : setAdd cs c ≠ [] := by
  unfold setAdd
  split
  · intro h
    subst h
    simp_all
  · simp

theorem regInv_registryAdd (m : Registry) (pid : String) (c : Client)
    (h : RegInv m) : RegInv (registryAdd m pid c) := by
  intro p cs hcs
  unfold registryAdd at hcs
  cases hm : mapGet m pid with
  | none =>
      rw [hm] at hcs
      rw [mapGet_mapSet] at hcs
      split at hcs
      · cases hcs
        exact setAdd_ne_nil [] c
      · exact h p cs hcs
  | some cs0 =>
      rw [hm] at hcs
      rw [mapGet_mapSet] at hcs
      split at hcs
      · cases hcs
        exact setAdd_ne_nil cs0 c
      · exact h p cs hcs

theorem regInv_registryRemove (m : Registry) (pid : String) (c : Client)
    (h : RegInv m) : RegInv (registryRemove m pid c) := by
  intro p cs hcs
  unfold registryRemove at hcs
  cases hm : mapGet m pid with
  | none =>
      rw [hm] at hcs
      exact h p cs hcs
  | some cs0 =>
      rw [hm] at hcs
      simp only at hcs
      split at hcs
      · rw [mapGet_mapDelete] at hcs
        split at hcs
        · cases hcs
        · exact h p cs hcs
      · rw [mapGet_mapSet] at hcs
        split at hcs
        · cases hcs
          assumption
        · exact h p cs hcs

theorem registryRemove_idem (m : Registry) (pid : String) (c : Client) :
    registryRemove (registryRemove m pid c) pid c = registryRemove m pid c := by
  unfold registryRemove
  cases hm : mapGet m pid with
  | none => simp [hm]
  | some cs0 =>
      simp only
      by_cases hnil : cs0.filter (fun x => x.cid ≠ c.cid) = []
      · rw [if_pos hnil, mapGet_mapDelete, if_pos rfl]
      · rw [if_neg hnil, mapGet_mapSet, if_pos rfl]
        simp only [List.filter_filter]
        have hff : cs0.filter (fun x => decide (x.cid ≠ c.cid) && decide (x.cid ≠ c.cid)) =
            cs0.filter (fun x => x.cid ≠ c.cid) := by
          simp
        rw [hff, if_neg hnil, mapSet_mapSet]

theorem mapGet_registryRemove_self (m : Registry) (pid : String) (c : Client) :
    ∀ cs, mapGet (registryRemove m pid c) pid = some cs →
      ∀ x ∈ cs, x.cid ≠ c.cid := by
  intro cs hcs x hx
  unfold registryRemove at hcs
  cases hm : mapGet m pid with
  | none =>
      simp only [hm] at hcs
      cases hcs
  | some cs0 =>
      simp only [hm] at hcs
      by_cases hnil : cs0.filter (fun y => y.cid ≠ c.cid) = []
      · rw [if_pos hnil, mapGet_mapDelete, if_pos rfl] at hcs
        cases hcs
      · rw [if_neg hnil, mapGet_mapSet, if_pos rfl] at hcs
        cases hcs
        have hmf := List.mem_filter.1 hx
        simpa using hmf.2

theorem publishCount_broadcastToProject (m : Registry) (pid : String)
    (e : CollaborationEvent) : publishCount (broadcastToProject m pid e) = 0 := by
  unfold broadcastToProject
  cases mapGet m pid with
  | none => rfl
  | some cs => simp [publishCount, List.countP_map, Function.comp_def]

theorem userLeftEmitCount_broadcastToProject (m : Registry) (pid : String)
    (e : CollaborationEvent) :
    userLeftEmitCount (broadcastToProject m pid e) = 0 := by
  unfold broadcastToProject
  cases mapGet m pid with
  | none => rfl
  | some cs => simp [userLeftEmitCount, List.countP_map, Function.comp_def]

theorem onConnection_registry (verify : String → Option String)
    (role : String → String → Option String) (infra : Infra) (m : Registry)
    (req : ConnReq) (cid : Nat) (sid : String) (now : Nat) :
    (onConnection verify role infra m req cid sid now).1 = m ∨
    ∃ pid c, (onConnection verify role infra m req cid sid now).1 =
      registryAdd m pid c := by
  obtain ⟨tk, pj⟩ := req
  cases tk with
  | none => left; rfl
  | some tok =>
      cases pj with
      | none => left; rfl
      | some pid =>
          cases hv : verify tok with
          | none => left; simp [onConnection, hv]
          | some uid =>
              cases hr : role pid uid with
              | none => left; simp [onConnection, hv, hr]
              | some rl =>
                  right
                  refine ⟨pid, ⟨cid, some uid, some pid, sid, true, wsOPEN⟩, ?_⟩
                  cases hs : infra.sessionOk <;> cases hpb : infra.publishOk <;>
                    simp [onConnection, hv, hr, hs, hpb, broadcastEvent]

theorem handleDisconnect_registry (infra : Infra) (m : Registry) (ws : Client)
    (now : Nat) :
    (handleDisconnect infra m ws now).1 = m ∨
    ∃ pid, (handleDisconnect infra m ws now).1 = registryRemove m pid ws := by
  cases hp : ws.projectId with
  | none => left; simp [handleDisconnect, hp]
  | some pid =>
      cases hu : ws.userId with
      | none => left; simp [handleDisconnect, hp, hu]
      | some uid =>
          right
          refine ⟨pid, ?_⟩
          cases hs : infra.sessionOk <;> cases hpb : infra.publishOk <;>
            simp [handleDisconnect, hp, hu, hs, hpb, broadcastEvent]

/-
Claim theorems.
-/

/-- Claim C1: every locally-originated event invokes the Bus publish exactly
once, and every bus-originated event invokes it zero times.  The conjuncts
cover, in order: `broadcastEvent` itself (the only publish site, reached once
per locally-originated event, counting the invocation also when it rejects);
the `pmessage` handler (bus-originated events, local fanout only, zero
publishes); and the three origination paths — client message, disconnect
lifecycle transition, and connect lifecycle transition — each performing
exactly one publish invocation when the preceding external writes succeed. -/
theorem publish_invocation_counts :
    (∀ (infra : Infra) (m : Registry) (e : CollaborationEvent),
        publishCount (runBroadcast infra m e) = 1) ∧
    (∀ (m : Registry) (ch : String) (w : Wire),
        publishCount (onPmessage m ch w) = 0) ∧
    (∀ (m : Registry) (ws : Client) (t : EventType) (p : String) (now : Nat)
        (uid pid : String), ws.userId = some uid → ws.projectId = some pid →
        publishCount (onMessage Infra.ok m ws t p now) = 1) ∧
    (∀ (m : Registry) (ws : Client) (now : Nat) (uid pid : String),
        ws.projectId = some pid → ws.userId = some uid →
        publishCount (handleDisconnect Infra.ok m ws now).2 = 1) ∧
    (∀ (verify : String → Option String)
        (role : String → String → Option String) (m : Registry)
        (tok pid uid rl : String) (cid : Nat) (sid : String) (now : Nat),
        verify tok = some uid → role pid uid = some rl →
        publishCount
          (onConnection verify role Infra.ok m ⟨some tok, some pid⟩
            cid sid now).2 = 1) := by
  refine ⟨?_, ?_, ?_, ?_, ?_⟩
  · intro infra m e
    cases hp : infra.publishOk
    · simp [runBroadcast, broadcastEvent, hp, publishCount, List.countP_cons]
    · simp [runBroadcast, broadcastEvent, hp, publishCount, List.countP_cons]
      simpa [publishCount] using
        publishCount_broadcastToProject m e.projectId e
  · intro m ch w
    cases w with
    | malformed => rfl
    | valid e =>
        unfold onPmessage parseWire
        cases channelProject ch with
        | none => rfl
        | some pid => exact publishCount_broadcastToProject m pid e
  · intro m ws t p now uid pid hu hp
    simp [onMessage, handleMessage, broadcastEvent, Infra.ok, hu, hp,
      publishCount, List.countP_cons]
    simpa [publishCount] using
      publishCount_broadcastToProject m pid ⟨t, pid, uid, p, now⟩
  · intro m ws now uid pid hp hu
    simp [handleDisconnect, broadcastEvent, Infra.ok, hp, hu, publishCount,
      List.countP_cons]
    simpa [publishCount] using
      publishCount_broadcastToProject (registryRemove m pid ws) pid
        ⟨EventType.user_left, pid, uid, ws.sessionId, now⟩
  · intro verify role m tok pid uid rl cid sid now hv hr
    simp [onConnection, broadcastEvent, Infra.ok, hv, hr, publishCount,
      List.countP_cons, List.countP_append]
    simpa [publishCount] using
      publishCount_broadcastToProject
        (registryAdd m pid ⟨cid, some uid, some pid, sid, true, wsOPEN⟩) pid
        ⟨EventType.user_joined, pid, uid, sid, now⟩

/-- Witness for C1: the hypothesis-bearing conjuncts applied to the concrete
fixtures. -/
theorem publish_invocation_counts_witness :
    publishCount (onMessage Infra.ok mRecv wsU EventType.cursor_moved "pl" 0) = 1 ∧
    publishCount (handleDisconnect Infra.ok mOnly cOnly 0).2 = 1 ∧
    publishCount
      (onConnection okVerify editorRole Infra.ok [] ⟨some "t", some "p"⟩
        0 "s" 0).2 = 1 :=
  ⟨publish_invocation_counts.2.2.1 mRecv wsU EventType.cursor_moved "pl" 0
      "u" "p" rfl rfl,
   publish_invocation_counts.2.2.2.1 mOnly cOnly 0 "u" "p" rfl rfl,
   publish_invocation_counts.2.2.2.2 okVerify editorRole [] "t" "p" "u"
      "editor" 0 "s" 0 rfl rfl⟩

/-- Counterexample for C2: a connection of user `v` is registered in room `p`
(so it is a Room member) and its user differs from the originator `u`, yet the
`user_joined` event is not sent to it because its socket ready state is
`CLOSING` (2), not `OPEN` — the claim that join/leave events are sent to every
Room member fails for members whose socket is not `OPEN`. -/
theorem user_joined_skips_non_open_member :
    mapGet mClosing "p" = some [cClosing] ∧
    cClosing.userId ≠ some eJoin.userId ∧
    eJoin.type = EventType.user_joined ∧
    broadcastToProject mClosing "p" eJoin = [] := by
  refine ⟨rfl, by decide, rfl, rfl⟩

/-- Claim C2 (amended): for every connection registered in the event's Room,
a `file_changed`/`cursor_moved`/`activity_update` event is never sent to a
connection whose user identifier equals the event's originating user
identifier, while `user_joined`/`user_left` events are sent to every Room
member whose socket is in the `OPEN` ready state — including the originating
user's own connection(s).  `hunique` expresses that `cid` is the room's object
identity (distinct `Set` elements are distinct objects). -/
theorem fanout_suppression_and_open_delivery (m : Registry) (pid : String)
    (e : CollaborationEvent) (cs : List Client) (c : Client)
    (hcs : mapGet m pid = some cs) (hc : c ∈ cs)
    (hunique : ∀ x ∈ cs, x.cid = c.cid → x = c) :
    ((e.type = .file_changed ∨ e.type = .cursor_moved ∨
        e.type = .activity_update) →
      c.userId = some e.userId → Act.send c.cid e ∉ broadcastToProject m pid e) ∧
    ((e.type = .user_joined ∨ e.type = .user_left) → c.readyState = wsOPEN →
      Act.send c.cid e ∈ broadcastToProject m pid e) := by
  constructor
  · intro htype huid hmem
    unfold broadcastToProject at hmem
    rw [hcs] at hmem
    rcases List.mem_map.1 hmem with ⟨x, hx, heq⟩
    have hcid : x.cid = c.cid := by
      injection heq
    have hxc := hunique x (List.mem_filter.1 hx).1 hcid
    subst hxc
    have hss := (List.mem_filter.1 hx).2
    simp [shouldSend, huid] at hss
    rcases htype with h | h | h <;> rw [h] at hss <;> simp at hss
  · intro htype hready
    unfold broadcastToProject
    rw [hcs]
    refine List.mem_map.2 ⟨c, List.mem_filter.2 ⟨hc, ?_⟩, rfl⟩
    rcases htype with h | h <;> simp [shouldSend, hready, h]

/-- Witness for C2: in a room holding a connection of user `v` and a second
connection of the originating user `u` (both `OPEN`), a `cursor_moved` event
from `u` is not delivered to `u`'s connection, while a `user_joined` event
from `u` is delivered to it. -/
theorem fanout_suppression_and_open_delivery_witness :
    Act.send cSelfU.cid eCursorU ∉ broadcastToProject mUV "p" eCursorU ∧
    Act.send cSelfU.cid eJoinU ∈ broadcastToProject mUV "p" eJoinU :=
  ⟨(fanout_suppression_and_open_delivery mUV "p" eCursorU [cOtherV, cSelfU]
      cSelfU rfl (by decide) (by decide)).1 (Or.inr (Or.inl rfl)) rfl,
   (fanout_suppression_and_open_delivery mUV "p" eJoinU [cOtherV, cSelfU]
      cSelfU rfl (by decide) (by decide)).2 (Or.inl rfl) rfl⟩

/-- Counterexample for C3: with an eligible receiver registered in the room, a
failing Bus publish yields zero local deliveries for the client message, while
the identical configuration with all writes succeeding delivers once — so a
publish failure does block local fanout, contradicting the claim. -/
theorem publish_failure_blocks_local_fanout :
    sendCount (onMessage pubFail mRecv wsU EventType.cursor_moved "pl" 0) = 0 ∧
    sendCount (onMessage Infra.ok mRecv wsU EventType.cursor_moved "pl" 0) = 1 := by
  refine ⟨rfl, rfl⟩

/-- Claim C3 (amended): a failure of the Session Store write, the Activity Log
append, or the Event Bus publish aborts the handling of a client message
before local fanout: no local delivery at all occurs for that event (the
`await` chain of `handleMessage`/`broadcastEvent` rethrows into the message
handler's catch). -/
theorem infra_failure_aborts_local_fanout (infra : Infra) (m : Registry)
    (ws : Client) (t : EventType) (p : String) (now : Nat)
    (h : infra.sessionOk = false ∨ infra.activityOk = false ∨
      infra.publishOk = false) :
    sendCount (onMessage infra m ws t p now) = 0 := by
  obtain ⟨s, a, pb⟩ := infra
  rcases hws : ws.userId with _ | uid <;> rcases hwp : ws.projectId with _ | pid <;>
    cases s <;> cases a <;> cases pb <;>
      simp_all [onMessage, handleMessage, broadcastEvent, sendCount,
        List.countP_cons]

/-- Witness for C3: the failing-publish configuration delivers nothing. -/
theorem infra_failure_aborts_local_fanout_witness :
    sendCount (onMessage pubFail mRecv wsU EventType.file_changed "pl" 7) = 0 :=
  infra_failure_aborts_local_fanout pubFail mRecv wsU EventType.file_changed
    "pl" 7 (Or.inr (Or.inr rfl))

/-- Counterexample for C4: a Bus message whose body names project `A` but that
arrives on channel `collaboration:B` is fanned out to room `B` (the
channel-derived identifier), not to room `A` (the identifier in the event
body) — refuting the claim that the Room is selected from the event body. -/
theorem fanout_room_follows_channel_not_body :
    eA.projectId = "A" ∧
    onPmessage mAB "collaboration:B" (Wire.valid eA) = [Act.send cB.cid eA] ∧
    broadcastToProject mAB eA.projectId eA = [Act.send cA.cid eA] ∧
    onPmessage mAB "collaboration:B" (Wire.valid eA) ≠
      broadcastToProject mAB eA.projectId eA := by
  refine ⟨rfl, by decide, by decide, by decide⟩

/-- Claim C4 (amended): the `pmessage` handler selects the Room by parsing the
channel name — splitting on `:` and taking the second segment — and not from
the deserialized event body. -/
theorem fanout_room_from_channel_segment (m : Registry) (ch : String)
    (e : CollaborationEvent) (pid : String)
    (h : channelProject ch = some pid) :
    onPmessage m ch (Wire.valid e) = broadcastToProject m pid e := by
  simp [onPmessage, parseWire, h]

/-- Witness for C4: on channel `collaboration:B` the handler fans out to room
`B` whatever the body says. -/
theorem fanout_room_from_channel_segment_witness :
    onPmessage mAB "collaboration:B" (Wire.valid eA) =
      broadcastToProject mAB "B" eA :=
  fanout_room_from_channel_segment mAB "collaboration:B" eA "B" (by decide)

/-- Counterexample for C5: an invalid/expired credential is closed with code
`1011` (`Internal server error`, via the outer catch around the
`verifyAccessToken` throw), not with the access-denied code `1008` that the
no-role path uses — refuting the claim that both failures close with an
access-denied code. -/
theorem invalid_token_closes_1011_not_1008 :
    onConnection badVerify editorRole Infra.ok [] ⟨some "t", some "p"⟩ 0 "s" 0 =
      ([], [Act.close 0 1011 "Internal server error"]) ∧
    onConnection okVerify noRole Infra.ok [] ⟨some "t", some "p"⟩ 1 "s" 0 =
      ([], [Act.close 1 1008 "Access denied"]) ∧
    (1011 : Nat) ≠ 1008 := by
  refine ⟨by decide, by decide, by decide⟩

/-- Claim C5 (amended): an invalid/expired credential closes the connection
with code `1011` (`Internal server error`); a valid credential whose user has
no role in the project closes it with the access-denied code `1008`.  In both
cases the whole result is the unchanged registry plus the single close action,
so no Registry entry is added, no Session record is created, and no event is
emitted. -/
theorem auth_failures_close_without_state (verify : String → Option String)
    (role : String → String → Option String) (infra : Infra) (m : Registry)
    (tok pid : String) (cid : Nat) (sid : String) (now : Nat) :
    (verify tok = none →
      onConnection verify role infra m ⟨some tok, some pid⟩ cid sid now =
        (m, [Act.close cid 1011 "Internal server error"])) ∧
    (∀ uid, verify tok = some uid → role pid uid = none →
      onConnection verify role infra m ⟨some tok, some pid⟩ cid sid now =
        (m, [Act.close cid 1008 "Access denied"])) := by
  constructor
  · intro hv
    simp [onConnection, hv]
  · intro uid hv hr
    simp [onConnection, hv, hr]

/-- Witness for C5: both failure paths at concrete inputs. -/
theorem auth_failures_close_without_state_witness :
    onConnection badVerify editorRole Infra.ok mAB ⟨some "t", some "p"⟩ 5 "s" 0 =
      (mAB, [Act.close 5 1011 "Internal server error"]) ∧
    onConnection okVerify noRole Infra.ok mAB ⟨some "t", some "p"⟩ 6 "s" 0 =
      (mAB, [Act.close 6 1008 "Access denied"]) :=
  ⟨(auth_failures_close_without_state badVerify editorRole Infra.ok mAB
      "t" "p" 5 "s" 0).1 rfl,
   (auth_failures_close_without_state okVerify noRole Infra.ok mAB
      "t" "p" 6 "s" 0).2 "u" rfl rfl⟩

/-- Counterexample for C6: the policy-violation close (missing token or
project identifier) uses code `1008`, the very same code the access-denied
close uses — refuting the claimed distinctness of the two codes. -/
theorem policy_code_equals_access_denied_code :
    closeCodes
      (onConnection okVerify editorRole Infra.ok [] ⟨none, some "p"⟩
        0 "s" 0).2 = [1008] ∧
    closeCodes
      (onConnection okVerify noRole Infra.ok [] ⟨some "t", some "p"⟩
        1 "s" 0).2 = [1008] := by
  refine ⟨by decide, by decide⟩

/-- Claim C6 (amended): a handshake missing the token or the project
identifier is closed immediately with code `1008` and reason
`Missing token or projectId` — a code equal to, not distinct from, the
access-denied code — and the result carries the unchanged registry and no
other action, so zero calls reach the Connection Registry, the Session Store,
and the Activity Log. -/
theorem missing_params_close_1008_no_state (verify : String → Option String)
    (role : String → String → Option String) (infra : Infra) (m : Registry)
    (req : ConnReq) (cid : Nat) (sid : String) (now : Nat)
    (h : req.token = none ∨ req.projectId = none) :
    onConnection verify role infra m req cid sid now =
      (m, [Act.close cid 1008 "Missing token or projectId"]) := by
  obtain ⟨tk, pj⟩ := req
  rcases h with h | h
  · cases h
    cases pj <;> rfl
  · cases h
    cases tk <;> rfl

/-- Witness for C6: a handshake without a token. -/
theorem missing_params_close_1008_no_state_witness :
    onConnection okVerify editorRole Infra.ok mAB ⟨none, some "p"⟩ 3 "s" 0 =
      (mAB, [Act.close 3 1008 "Missing token or projectId"]) :=
  missing_params_close_1008_no_state okVerify editorRole Infra.ok mAB
    ⟨none, some "p"⟩ 3 "s" 0 (Or.inl rfl)

/-- Claim C7: a connection that never acknowledges a liveness probe is
terminated by the second heartbeat sweep, and the close path that
`ws.terminate()` triggers removes it from the Registry and sets its Session
record inactive.  The first sweep finds the flag `true` (set on connect),
resets it to `false` and pings; with no pong ever received the second sweep
finds `false` and terminates — two intervals in total. -/
theorem heartbeat_reclaims_within_two_sweeps (c : Client) (m : Registry)
    (pid uid : String) (now : Nat) (halive : c.isAlive = true)
    (hpid : c.projectId = some pid) (huid : c.userId = some uid) :
    sweepClient c = (some { c with isAlive := false }, [Act.ping c.cid]) ∧
    sweepClient { c with isAlive := false } = (none, [Act.terminate c.cid]) ∧
    (∀ cs,
      mapGet (handleDisconnect Infra.ok m { c with isAlive := false } now).1
          pid = some cs → ∀ x ∈ cs, x.cid ≠ c.cid) ∧
    Act.sessionDeactivate c.sessionId ∈
      (handleDisconnect Infra.ok m { c with isAlive := false } now).2 := by
  refine ⟨?_, ?_, ?_, ?_⟩
  · simp [sweepClient, halive]
  · simp [sweepClient]
  · have h1 :
        (handleDisconnect Infra.ok m { c with isAlive := false } now).1 =
          registryRemove m pid { c with isAlive := false } := by
      simp [handleDisconnect, hpid, huid, Infra.ok, broadcastEvent]
    rw [h1]
    exact mapGet_registryRemove_self m pid { c with isAlive := false }
  · simp [handleDisconnect, hpid, huid, Infra.ok, broadcastEvent]

/-- Witness for C7: the sole connection of room `p`, never ponging, is pinged,
then terminated, and the close path leaves no room entry carrying its
identity while deactivating its session. -/
theorem heartbeat_reclaims_within_two_sweeps_witness :
    sweepClient cOnly = (some { cOnly with isAlive := false },
      [Act.ping cOnly.cid]) ∧
    sweepClient { cOnly with isAlive := false } =
      (none, [Act.terminate cOnly.cid]) ∧
    (∀ cs,
      mapGet (handleDisconnect Infra.ok mOnly { cOnly with isAlive := false }
          0).1 "p" = some cs → ∀ x ∈ cs, x.cid ≠ cOnly.cid) ∧
    Act.sessionDeactivate cOnly.sessionId ∈
      (handleDisconnect Infra.ok mOnly { cOnly with isAlive := false } 0).2 :=
  heartbeat_reclaims_within_two_sweeps cOnly mOnly "p" "u" 0 rfl rfl rfl

/-- Counterexample for C8: running `handleDisconnect` a second time on the
already-removed connection emits a second `user_left` event (the guard fields
`ws.projectId`/`ws.userId` are never cleared), refuting the claimed absence of
a duplicate `user_left`. -/
theorem second_disconnect_emits_duplicate_user_left :
    userLeftEmitCount (handleDisconnect Infra.ok mOnly cOnly 0).2 = 1 ∧
    userLeftEmitCount
      (handleDisconnect Infra.ok (handleDisconnect Infra.ok mOnly cOnly 0).1
        cOnly 1).2 = 1 := by
  refine ⟨rfl, rfl⟩

/-- Claim C8 (amended): running the disconnect path a second time produces no
error from the Registry removal — removing an absent connection is a no-op and
the registry is unchanged by the second run — but it does emit a duplicate
`user_left` event. -/
theorem double_disconnect_registry_idempotent (m : Registry) (c : Client)
    (pid uid : String) (n1 n2 : Nat) (hp : c.projectId = some pid)
    (hu : c.userId = some uid) :
    (handleDisconnect Infra.ok (handleDisconnect Infra.ok m c n1).1 c n2).1 =
      (handleDisconnect Infra.ok m c n1).1 ∧
    userLeftEmitCount
      (handleDisconnect Infra.ok (handleDisconnect Infra.ok m c n1).1
        c n2).2 = 1 := by
  have hreg : ∀ (m' : Registry) (n : Nat),
      (handleDisconnect Infra.ok m' c n).1 = registryRemove m' pid c := by
    intro m' n
    simp [handleDisconnect, hp, hu, Infra.ok, broadcastEvent]
  have hcount : ∀ (m' : Registry) (n : Nat),
      userLeftEmitCount (handleDisconnect Infra.ok m' c n).2 = 1 := by
    intro m' n
    simp [handleDisconnect, hp, hu, Infra.ok, broadcastEvent,
      userLeftEmitCount, List.countP_cons]
    simpa [userLeftEmitCount] using
      userLeftEmitCount_broadcastToProject (registryRemove m' pid c) pid
        ⟨EventType.user_left, pid, uid, c.sessionId, n⟩
  refine ⟨?_, hcount _ _⟩
  rw [hreg, hreg]
  exact registryRemove_idem m pid c

/-- Witness for C8: the double disconnect of the sole connection of room
`p`. -/
theorem double_disconnect_registry_idempotent_witness :
    (handleDisconnect Infra.ok (handleDisconnect Infra.ok mOnly cOnly 0).1
        cOnly 1).1 = (handleDisconnect Infra.ok mOnly cOnly 0).1 ∧
    userLeftEmitCount
      (handleDisconnect Infra.ok (handleDisconnect Infra.ok mOnly cOnly 0).1
        cOnly 1).2 = 1 :=
  double_disconnect_registry_idempotent mOnly cOnly "p" "u" 0 1 rfl rfl

/-- Claim C9: both Gateway operations that touch the registry — the connection
handler and the disconnect handler — preserve the invariant that every project
key present in the registry maps to a non-empty room (an emptied room's key is
deleted, a registered room always holds the added client). -/
theorem registry_rooms_nonempty_invariant (verify : String → Option String)
    (role : String → String → Option String) (infra : Infra) (m : Registry)
    (req : ConnReq) (cid : Nat) (sid : String) (now : Nat) (ws : Client)
    (now' : Nat) (hinv : RegInv m) :
    RegInv (onConnection verify role infra m req cid sid now).1 ∧
    RegInv (handleDisconnect infra m ws now').1 := by
  constructor
  · rcases onConnection_registry verify role infra m req cid sid now with
      h | ⟨pid, c, h⟩
    · rw [h]
      exact hinv
    · rw [h]
      exact regInv_registryAdd m pid c hinv
  · rcases handleDisconnect_registry infra m ws now' with h | ⟨pid, h⟩
    · rw [h]
      exact hinv
    · rw [h]
      exact regInv_registryRemove m pid ws hinv

/-- Witness for C9: a successful connect into the empty registry and the
disconnect of the sole room member both leave only non-empty rooms. -/
theorem registry_rooms_nonempty_invariant_witness :
    RegInv
      (onConnection okVerify editorRole Infra.ok [] ⟨some "t", some "p"⟩
        0 "s" 0).1 ∧
    RegInv (handleDisconnect Infra.ok [] cOnly 0).1 :=
  registry_rooms_nonempty_invariant okVerify editorRole Infra.ok []
    ⟨some "t", some "p"⟩ 0 "s" 0 cOnly 0
    (by
      intro p cs h
      simp [mapGet] at h)

/-- Claim C10: `broadcastEvent` both publishes to the Bus and fans out
locally, and the `pmessage` handler fans out every well-formed delivery with
no suppression of own-process messages; hence when the process's own published
message is delivered back by the wildcard subscription, an eligible local
connection (`shouldSend` true, registered in the event's room) receives the
event at least twice. -/
theorem own_bus_message_double_delivery (m : Registry)
    (e : CollaborationEvent) (cs : List Client) (c : Client)
    (hcs : mapGet m e.projectId = some cs) (hc : c ∈ cs)
    (hss : shouldSend c e = true)
    (hch : channelProject ("collaboration:" ++ e.projectId) =
      some e.projectId) :
    2 ≤ List.count (Act.send c.cid e)
        (runBroadcast Infra.ok m e ++
          onPmessage m ("collaboration:" ++ e.projectId) (Wire.valid e)) := by
  have hmem : Act.send c.cid e ∈ broadcastToProject m e.projectId e := by
    unfold broadcastToProject
    rw [hcs]
    exact List.mem_map.2 ⟨c, List.mem_filter.2 ⟨hc, hss⟩, rfl⟩
  have h1 : Act.send c.cid e ∈ runBroadcast Infra.ok m e := by
    simp only [runBroadcast, broadcastEvent, Infra.ok, if_pos]
    exact List.mem_cons_of_mem _ hmem
  have h2 : Act.send c.cid e ∈
      onPmessage m ("collaboration:" ++ e.projectId) (Wire.valid e) := by
    simpa [onPmessage, parseWire, hch] using hmem
  rw [List.count_append]
  have g1 : 1 ≤ List.count (Act.send c.cid e) (runBroadcast Infra.ok m e) :=
    List.count_pos_iff.2 h1
  have g2 : 1 ≤ List.count (Act.send c.cid e)
      (onPmessage m ("collaboration:" ++ e.projectId) (Wire.valid e)) :=
    List.count_pos_iff.2 h2
  omega

/-- Witness for C10: the connection of user `v` in room `A` receives user
`u`'s `cursor_moved` event twice — once from the local fanout of
`broadcastEvent` and once from the wildcard subscription echoing the
process's own publish. -/
theorem own_bus_message_double_delivery_witness :
    2 ≤ List.count (Act.send cA.cid eA)
        (runBroadcast Infra.ok mAB eA ++
          onPmessage mAB ("collaboration:" ++ eA.projectId) (Wire.valid eA)) :=
  own_bus_message_double_delivery mAB eA [cA] cA (by decide) (by decide)
    (by decide) (by decide)
